import Mathlib

/-
Shallow embedding of the SDP client of src/subsys/bluetooth/host/sdp.c:
the session state machine (request queue, transaction id discipline,
Service-Search-Attribute request encoding, multi-frame response reassembly
and per-record delivery).  Pure data is modelled with Lean lists of bytes
(Nat values below 256 on the wire); the stateful C code becomes explicit
state passing on a Session record, and the externally observable actions
(request PDUs sent on the channel, user callback invocations, channel
disconnect) become an event trace returned next to the new state.
-/

namespace Sdp

/-- Modelled from the spec: SDP wire constants.  The header files defining
them (sdp.h, sdp_internal.h) are not part of the source tree here; the
values follow the wire format of section 6 of the design document and the
standard SDP data-element tags used by the source. -/
def BT_SDP_ERROR_RSP : Nat := 0x01

/-- Modelled from the spec: opcode of the Service-Search-Attribute request. -/
def BT_SDP_SVC_SEARCH_ATTR_REQ : Nat := 0x06

/-- Modelled from the spec: opcode of the Service-Search-Attribute response. -/
def BT_SDP_SVC_SEARCH_ATTR_RSP : Nat := 0x07

/-- Modelled from the spec: data element tag for a sequence with 1-byte length. -/
def BT_SDP_SEQ8 : Nat := 0x35

/-- Modelled from the spec: data element tag for a sequence with 2-byte length. -/
def BT_SDP_SEQ16 : Nat := 0x36

/-- Modelled from the spec: data element tag for a 16-bit UUID. -/
def BT_SDP_UUID16 : Nat := 0x19

/-- Modelled from the spec: data element tag for a 32-bit UUID. -/
def BT_SDP_UUID32 : Nat := 0x1a

/-- Modelled from the spec: data element tag for a 128-bit UUID. -/
def BT_SDP_UUID128 : Nat := 0x1c

/-- Modelled from the spec: data element tag for a 32-bit unsigned integer. -/
def BT_SDP_UINT32 : Nat := 0x0a

/-- Modelled from the spec: maximum length of a PDU continuation state (16). -/
def BT_SDP_MAX_PDU_CSTATE_LEN : Nat := 16

/-- Modelled from the spec: implementation-wide ceiling for the maximum
attribute byte count requested from the server.  The exact value is not
relevant to any claim, only that it is a 16-bit quantity. -/
def BT_SDP_MAX_ATTR_LEN : Nat := 0xffff

/-- Modelled from the spec: user callback return value requesting that record
delivery for the current batch stops. -/
def BT_SDP_DISCOVER_UUID_STOP : Nat := 0

/-- Modelled from the spec: user callback return value requesting that record
delivery continues with the next record. -/
def BT_SDP_DISCOVER_UUID_CONTINUE : Nat := 1

/-- Size of struct bt_sdp_hdr on the wire: opcode u8, tid u16, param_len u16. -/
def sdpHdrSize : Nat := 5

/-- Big-endian decoding of two bytes into a 16-bit value. -/
def be16dec (hi lo : Nat) : Nat := hi * 256 + lo

/-- Big-endian encoding of a 16-bit value into two bytes. -/
def be16enc (n : Nat) : List Nat := [n / 256 % 256, n % 256]

/-- Big-endian encoding of a 32-bit value into four bytes. -/
def be32enc (n : Nat) : List Nat :=
  [n / 2 ^ 24 % 256, n / 2 ^ 16 % 256, n / 256 % 256, n % 256]

/-- struct bt_sdp_pdu_cstate: a continuation state, a length in 0..16 and the
meaningful bytes.  The C struct carries a fixed 16-byte array of which only
the first length bytes are meaningful; the model keeps just those bytes. -/
structure PduCstate where
  length : Nat
  data : List Nat
deriving DecidableEq, Repr

/-- The continuation state with length zero: start fresh. -/
def emptyCstate : PduCstate := ⟨0, []⟩

/-- The record reassembly buffer (session rec_buf): accumulated bytes and the
fixed capacity chosen when the buffer was allocated. -/
structure RecBuf where
  data : List Nat
  capacity : Nat
deriving DecidableEq, Repr

/-- net_buf_tailroom: bytes that can still be appended. -/
def RecBuf.tailroom (b : RecBuf) : Nat := b.capacity - b.data.length

/-- net_buf_add_mem: append bytes at the tail. -/
def RecBuf.addMem (b : RecBuf) (bytes : List Nat) : RecBuf :=
  { b with data := b.data ++ bytes }

/-- A UUID as supplied by the caller: a tagged 16, 32 or 128-bit value, or an
unknown tag (the default branch of the switch in sdp_client_ssa_search). -/
inductive BtUuid where
  | u16 (val : Nat)
  | u32 (val : Nat)
  | u128 (val : List Nat)
  | unknown (t : Nat)
deriving DecidableEq, Repr

/-- struct bt_sdp_client_result as seen by the user callback: either one
record (a byte slice plus the next-record hint flag) or a not-resolved
notification (NULL response buffer in the C). -/
inductive SdpClientResult where
  | resolved (record : List Nat) (nextRecordHint : Bool)
  | notResolved
deriving DecidableEq, Repr

/-- struct bt_sdp_discover_params: the queued UUID query.  The id stands for
the node identity (the C compares list nodes by address); func is the user
callback returning STOP or CONTINUE. -/
structure DiscoverParams where
  id : Nat
  uuid : BtUuid
  func : SdpClientResult → Nat

/-- Externally observable actions of the session, in order: a request PDU
sent on the channel (with the transaction id it carries), a user callback
invocation (recording the queue content at the moment of the call and the
value the callback returned), and a channel disconnect request. -/
inductive Event where
  | sentRequest (tid : Nat) (pdu : List Nat)
  | callback (qid : Nat) (res : SdpClientResult) (queueAtCall : List Nat) (ret : Nat)
  | disconnect
deriving DecidableEq, Repr

/-- struct bt_sdp_client: the session state that the claims are about. -/
structure Session where
  reqs : List DiscoverParams
  tid : Nat
  param : Option DiscoverParams
  cstate : PduCstate
  recBuf : RecBuf

/-- Ids of the queued queries, used to record queue content in events. -/
def reqIds (l : List DiscoverParams) : List Nat := l.map fun q => q.id

/-- UUID data element of the request body: length byte and type tag chosen by
UUID width (switch over param uuid type in sdp_client_ssa_search), followed
by the big-endian value.  An unknown type fails (-EINVAL in the C). -/
def encodeUuidElem : BtUuid → Option (List Nat)
  | .u16 v => some ([0x03, BT_SDP_UUID16] ++ be16enc v)
  | .u32 v => some ([0x05, BT_SDP_UUID32] ++ be32enc v)
  | .u128 v => some ([0x11, BT_SDP_UUID128] ++ v)
  | .unknown _ => none

/-- Trailing continuation block of the request: a single zero byte for the
fresh state, otherwise the length byte followed by that many state bytes
(sdp_client_ssa_search, lines 400..406 of the source). -/
def encodeCstateBlock (c : PduCstate) : List Nat :=
  if c.length = 0 then [0] else c.length :: c.data.take c.length

/-- Reading a continuation block back: first byte is the length, then that
many data bytes follow (mirrors the cstate overlay read in
sdp_client_receive at the frame tail). -/
def decodeCstateBlock (bytes : List Nat) : PduCstate :=
  ⟨bytes.getD 0 0, (bytes.drop 1).take (bytes.getD 0 0)⟩

/-- Body of the Service-Search-Attribute request, the bytes following the
PDU header, exactly in the order sdp_client_ssa_search adds them. -/
def encodeSsaBody (u : BtUuid) (c : PduCstate) : Option (List Nat) :=
  match encodeUuidElem u with
  | none => none
  | some ue =>
      some (BT_SDP_SEQ8 :: ue
        ++ be16enc BT_SDP_MAX_ATTR_LEN
        ++ [BT_SDP_SEQ8, 0x05, BT_SDP_UINT32]
        ++ be16enc 0x0000 ++ be16enc 0xffff
        ++ encodeCstateBlock c)

/-- Full request PDU: header (opcode, big-endian tid, big-endian parameter
length patched to the body length) followed by the body. -/
def encodeSsaPdu (u : BtUuid) (c : PduCstate) (tid : Nat) : Option (List Nat) :=
  match encodeSsaBody u c with
  | none => none
  | some body =>
      some (BT_SDP_SVC_SEARCH_ATTR_REQ :: be16enc tid
        ++ be16enc body.length ++ body)

/-- sdp_client_ssa_search: pick the active query (the cached param if the
session is mid-transfer, otherwise the queue head), encode the request with
the current continuation state, bump the transaction id modulo 2^16 and send.
The error returns of the C (no query, unknown UUID type) become none and
leave the session unchanged, exactly as the C returns before mutating. -/
def sdp_client_ssa_search (s : Session) : Option (Session × Event) :=
  match (match s.param with | none => s.reqs.head? | some p => some p) with
  | none => none
  | some param =>
      match encodeSsaPdu param.uuid s.cstate ((s.tid + 1) % 65536) with
      | none => none
      | some pdu =>
          some ({ s with param := some param, tid := (s.tid + 1) % 65536 },
                .sentRequest ((s.tid + 1) % 65536) pdu)

/-- Remove the first queue entry whose node identity matches, as
sys_slist_remove does for the node found by the iterator loop. -/
def removeReq : List DiscoverParams → Nat → List DiscoverParams
  | [], _ => []
  | q :: rest, i => if q.id = i then rest else q :: removeReq rest i

/-- sdp_client_params_iterator: find the queue node of the active query,
remove it, invalidate the cached param, reset the continuation state, then
either resolve the next queued UUID or disconnect the channel when the
queue became empty.  When the active query is not linked (or there is no
active query) the loop finds nothing and the session is unchanged. -/
def sdp_client_params_iterator (s : Session) : Session × List Event :=
  match s.param with
  | none => (s, [])
  | some p =>
      if s.reqs.any fun q => q.id = p.id then
        if (removeReq s.reqs p.id).isEmpty then
          ({ s with reqs := removeReq s.reqs p.id, param := none, cstate := emptyCstate }, [.disconnect])
        else
          match sdp_client_ssa_search { s with reqs := removeReq s.reqs p.id, param := none, cstate := emptyCstate } with
          | some (s3, ev) => (s3, [ev])
          | none => ({ s with reqs := removeReq s.reqs p.id, param := none, cstate := emptyCstate }, [])
      else (s, [])

/-- sdp_client_get_total: on the first frame of a transfer (session
continuation state empty) pull the total-octet-count sequence element from
the frame and return how many bytes were consumed; on subsequent frames
consume nothing and report total zero.  Result is (pulled, total, rest of
the frame).  A frame shorter than the element would underflow the net_buf
pulls in the C; the model truncates, no claim exercises that case. -/
def sdp_client_get_total (s : Session) (body : List Nat) :
    Nat × Nat × List Nat :=
  if s.cstate.length = 0 then
    match body with
    | [] => (1, 0, [])
    | seq :: rest =>
        if seq = BT_SDP_SEQ8 then
          match rest with
          | [] => (2, 0, [])
          | t :: rest2 => (2, t, rest2)
        else if seq = BT_SDP_SEQ16 then
          match rest with
          | hi :: lo :: rest2 => (3, be16dec hi lo, rest2)
          | _ => (3, 0, [])
        else (1, 0, rest)
  else (0, 0, body)

/-- get_record_len: pull one sequence header from the front of the
reassembly buffer and return the declared record length and the buffer
remainder; an unhandled tag yields length zero. -/
def get_record_len (data : List Nat) : Nat × List Nat :=
  match data with
  | [] => (0, [])
  | seq :: rest =>
      if seq = BT_SDP_SEQ8 then
        match rest with
        | [] => (0, [])
        | l :: rest2 => (l, rest2)
      else if seq = BT_SDP_SEQ16 then
        match rest with
        | hi :: lo :: rest2 => (be16dec hi lo, rest2)
        | _ => (0, [])
      else (0, rest)

/-- After pulling a record header the buffer strictly shrank. -/
theorem get_record_len_rest_le (b : Nat) (bs : List Nat) :
    (get_record_len (b :: bs)).2.length ≤ bs.length := by
  unfold get_record_len
  by_cases h8 : b = BT_SDP_SEQ8
  · cases bs with
    | nil => simp [h8]
    | cons l rest2 => simp [h8]
  · by_cases h16 : b = BT_SDP_SEQ16
    · cases bs with
      | nil => simp [h8, h16, BT_SDP_SEQ8, BT_SDP_SEQ16]
      | cons hi rest =>
          cases rest with
          | nil => simp [h8, h16, BT_SDP_SEQ8, BT_SDP_SEQ16]
          | cons lo rest2 =>
              simp [h8, h16, BT_SDP_SEQ8, BT_SDP_SEQ16]
              omega
    · simp [h8, h16]

/-- Termination measure fact for the delivery loop below. -/
theorem get_record_len_drop_lt (b : Nat) (bs : List Nat) :
    (get_record_len (b :: bs)).2.length - (get_record_len (b :: bs)).1 <
      bs.length + 1 := by
  have h1 := get_record_len_rest_le b bs
  omega

/-- The delivery loop of sdp_client_notify_result for a resolved UUID:
while bytes remain, read one record header, hand the record slice to the
user callback together with the next-record hint (more bytes remain after
this record), pull the record, and stop early when the callback returns
the STOP value.  Returns the emitted callback events and the bytes left in
the buffer when the loop ended. -/
def notifyLoop (f : SdpClientResult → Nat) (qid : Nat) (queueIds : List Nat)
    (data : List Nat) : List Event × List Nat :=
  match data with
  | [] => ([], [])
  | b :: bs =>
      let r := get_record_len (b :: bs)
      let hint : Bool := r.1 < r.2.length
      let res := SdpClientResult.resolved (r.2.take r.1) hint
      let ret := f res
      let ev := Event.callback qid res queueIds ret
      if ret = BT_SDP_DISCOVER_UUID_STOP then ([ev], r.2.drop r.1)
      else
        let next := notifyLoop f qid queueIds (r.2.drop r.1)
        (ev :: next.1, next.2)
termination_by data.length
decreasing_by
  simp_wf
  exact get_record_len_drop_lt _ _

/-- sdp_client_notify_result: for a not-resolved UUID invoke the callback
once with a NULL response buffer; for a resolved UUID run the delivery
loop over the reassembly buffer.  Every callback event records the ids of
the queries linked in the queue at the moment of the call. -/
def sdp_client_notify_result (s : Session) (resolved : Bool) :
    Session × List Event :=
  match s.param with
  | none => (s, [])
  | some p =>
      if resolved then
        let r := notifyLoop p.func p.id (reqIds s.reqs) s.recBuf.data
        ({ s with recBuf := { s.recBuf with data := r.2 } }, r.1)
      else
        (s, [.callback p.id .notResolved (reqIds s.reqs)
              (p.func .notResolved)])

/-- sdp_client_receive: validate the response envelope (length, opcode,
transaction id), then for a search-attribute response check the attribute
byte count and the trailing continuation state, handle the no-record
short-circuit, pull the first-frame total, append the frame payload to the
reassembly buffer and either request the next fragment (nonzero trailing
continuation) or deliver the records and advance the queue.  Every early
return of the C maps to returning the unchanged session with no events. -/
def sdp_client_receive (s : Session) (buf : List Nat) :
    Session × List Event :=
  if buf.length < sdpHdrSize then (s, [])
  else if buf.getD 0 0 = BT_SDP_ERROR_RSP then (s, [])
  else
    let len := be16dec (buf.getD 3 0) (buf.getD 4 0)
    let tid := be16dec (buf.getD 1 0) (buf.getD 2 0)
    let rest := buf.drop sdpHdrSize
    if rest.length ≠ len then (s, [])
    else if tid ≠ s.tid then (s, [])
    else if buf.getD 0 0 = BT_SDP_SVC_SEARCH_ATTR_RSP then
      let frameLen := be16dec (rest.getD 0 0) (rest.getD 1 0)
      let body := rest.drop 2
      if frameLen < 2 then (s, [])
      else
        let cstateLen := body.getD frameLen 0
        if BT_SDP_MAX_PDU_CSTATE_LEN < cstateLen then (s, [])
        else if len < frameLen + cstateLen then (s, [])
        else if frameLen = 2 ∧ cstateLen = 0 ∧ s.cstate.length = 0 then
          let r1 := sdp_client_notify_result s false
          let r2 := sdp_client_params_iterator r1.1
          (r2.1, r1.2 ++ r2.2)
        else
          let g := sdp_client_get_total s body
          let frameLen2 := (frameLen + 65536 - g.1) % 65536
          if s.recBuf.tailroom < g.2.1 then
            sdp_client_params_iterator s
          else
            let s1 := { s with recBuf := s.recBuf.addMem (g.2.2.take frameLen2) }
            if cstateLen ≠ 0 then
              let s2 := { s1 with cstate :=
                  ⟨cstateLen, (body.drop (frameLen + 1)).take cstateLen⟩ }
              match sdp_client_ssa_search s2 with
              | some (s3, ev) => (s3, [ev])
              | none => (s2, [])
            else
              let r1 := sdp_client_notify_result s1 true
              let r2 := sdp_client_params_iterator r1.1
              (r2.1, r1.2 ++ r2.2)
    else (s, [])

/-- The malformed-PDU conditions named by the error-handling design: header
too short, declared parameter length not matching the remaining bytes,
transaction id not matching the session, embedded continuation length above
16, attribute byte count below 2, and attribute bytes plus continuation
length exceeding the declared parameter length.  The accessors are spelled
exactly as sdp_client_receive computes them. -/
def malformedPdu (s : Session) (buf : List Nat) : Prop :=
  buf.length < sdpHdrSize ∨
  (buf.drop sdpHdrSize).length ≠ be16dec (buf.getD 3 0) (buf.getD 4 0) ∨
  be16dec (buf.getD 1 0) (buf.getD 2 0) ≠ s.tid ∨
  be16dec ((buf.drop sdpHdrSize).getD 0 0) ((buf.drop sdpHdrSize).getD 1 0) < 2 ∨
  BT_SDP_MAX_PDU_CSTATE_LEN <
    ((buf.drop sdpHdrSize).drop 2).getD
      (be16dec ((buf.drop sdpHdrSize).getD 0 0) ((buf.drop sdpHdrSize).getD 1 0)) 0 ∨
  be16dec (buf.getD 3 0) (buf.getD 4 0) <
    be16dec ((buf.drop sdpHdrSize).getD 0 0) ((buf.drop sdpHdrSize).getD 1 0) +
    ((buf.drop sdpHdrSize).drop 2).getD
      (be16dec ((buf.drop sdpHdrSize).getD 0 0) ((buf.drop sdpHdrSize).getD 1 0)) 0

/-- Whether an event is a user callback invocation. -/
def isCallbackEv : Event → Bool
  | .callback _ _ _ _ => true
  | _ => false

/-- Number of user callback invocations in a trace. -/
def countCallbacks (evs : List Event) : Nat :=
  (evs.filter isCallbackEv).length

/-- Queue snapshots recorded by the callback events of a trace. -/
def callbackQueues (evs : List Event) : List (List Nat) :=
  evs.filterMap fun ev => match ev with
    | .callback _ _ qs _ => some qs
    | _ => none

/-- A callback that always asks to continue record delivery. -/
def contCallback : SdpClientResult → Nat := fun _ => BT_SDP_DISCOVER_UUID_CONTINUE

/-- A callback that always asks to stop record delivery. -/
def stopCallback : SdpClientResult → Nat := fun _ => BT_SDP_DISCOVER_UUID_STOP

/-- A concrete query used by witnesses and counterexamples. -/
def qA : DiscoverParams := ⟨1, .u16 0x1234, contCallback⟩

/-- A second concrete query used by witnesses and counterexamples. -/
def qB : DiscoverParams := ⟨2, .u16 0x5678, contCallback⟩

/-- A concrete session holding one query, fresh continuation state. -/
def sessFresh : Session := ⟨[qA], 0, some qA, ⟨0, []⟩, ⟨[], 16⟩⟩

/-- A concrete session parked mid-transfer (nonempty continuation state). -/
def sessMid : Session := ⟨[qA], 3, some qA, ⟨8, [1, 2, 3, 4, 5, 6, 7, 8]⟩, ⟨[], 16⟩⟩

/-- A no-record response frame: search-attribute response opcode, the given
transaction id, parameter length 5, attribute byte count exactly 2 (the two
attribute bytes x and y) and trailing continuation length 0. -/
def noRecordFrame (tid x y : Nat) : List Nat :=
  BT_SDP_SVC_SEARCH_ATTR_RSP :: be16enc tid ++ [0, 5, 0, 2, x, y, 0]

/-- A first-frame response carrying a declared total octet count T, payload
bytes p after the total element, and an empty trailing continuation. -/
def totalFrame (tid T : Nat) (p : List Nat) : List Nat :=
  BT_SDP_SVC_SEARCH_ATTR_RSP :: be16enc tid ++ be16enc (p.length + 6) ++
    be16enc (p.length + 3) ++ BT_SDP_SEQ16 :: be16enc T ++ p ++ [0]

/-- A concrete session whose reassembly buffer still holds three leftover
bytes with capacity four, so only one byte of tailroom remains. -/
def sessLeftover : Session := ⟨[qA, qB], 0, some qA, ⟨0, []⟩, ⟨[9, 9, 9], 4⟩⟩

/-- A concrete query whose callback always answers with the stop signal. -/
def qStop : DiscoverParams := ⟨3, .u16 1, stopCallback⟩

/-- A concrete session whose reassembly buffer holds three one-byte records,
each preceded by a SEQ8 record header. -/
def sessThreeRecords : Session :=
  ⟨[qStop], 5, some qStop, ⟨0, []⟩,
    ⟨[0x35, 1, 0xAA, 0x35, 1, 0xBB, 0x35, 1, 0xCC], 20⟩⟩

/-- A concrete 16-byte value for a 128-bit UUID. -/
def u128ex : List Nat := [1, 2, 3, 4, 5, 6, 7, 8, 9, 10, 11, 12, 13, 14, 15, 16]

/- Arithmetic and list helpers shared by the claim proofs. -/

/-- Big-endian 16-bit encode and decode round-trip. -/
theorem be16_round (n : Nat) (h : n < 65536) :
    be16dec (n / 256 % 256) (n % 256) = n := by
  unfold be16dec
  omega

/-- Reading just past an appended prefix lands on the head of the tail. -/
theorem getD_append_len (p tail : List Nat) (x : Nat) :
    (p ++ tail).getD p.length x = tail.getD 0 x := by
  rw [List.getD_append_right p tail x p.length (le_refl _)]
  simp

/-- removeReq is the identity when no entry has the id. -/
theorem removeReq_not_mem (l : List DiscoverParams) (i : Nat)
    (h : l.all fun q => q.id ≠ i) : removeReq l i = l := by
  induction l with
  | nil => rfl
  | cons q rest ih =>
      simp only [List.all_cons, Bool.and_eq_true, decide_eq_true_eq] at h
      unfold removeReq
      rw [if_neg h.1, ih h.2]

/-- sdp_client_ssa_search mutates only the cached param and the transaction
id, and its only event is a sent request. -/
theorem ssa_search_effects (s s2 : Session) (ev : Event)
    (h : sdp_client_ssa_search s = some (s2, ev)) :
    s2.reqs = s.reqs ∧ s2.recBuf = s.recBuf ∧ s2.cstate = s.cstate ∧
      isCallbackEv ev = false := by
  unfold sdp_client_ssa_search at h
  split at h
  · exact absurd h (by simp)
  · split at h
    · exact absurd h (by simp)
    · simp only [Option.some.injEq, Prod.mk.injEq] at h
      obtain ⟨hs2, hev⟩ := h
      refine ⟨by rw [← hs2], by rw [← hs2], by rw [← hs2], ?_⟩
      rw [← hev]
      rfl

/-- sdp_client_params_iterator leaves the reassembly buffer untouched. -/
theorem params_iterator_recBuf (s : Session) :
    (sdp_client_params_iterator s).1.recBuf = s.recBuf := by
  unfold sdp_client_params_iterator
  split
  · rfl
  · split
    · split
      · rfl
      · split
        · rename_i s3 ev hs
          exact (ssa_search_effects _ s3 ev hs).2.1
        · rfl
    · rfl

/-- sdp_client_params_iterator emits no user callback. -/
theorem params_iterator_no_callback (s : Session) :
    countCallbacks (sdp_client_params_iterator s).2 = 0 := by
  unfold sdp_client_params_iterator
  split
  · rfl
  · split
    · split
      · simp [countCallbacks, isCallbackEv]
      · split
        · rename_i s3 ev hs
          have h4 := (ssa_search_effects _ s3 ev hs).2.2.2
          simp [countCallbacks, List.filter, h4]
        · rfl
    · rfl

/-- When the session has an active query, sdp_client_params_iterator removes
exactly that query from the queue (and removes nothing when the query is
not linked, in which case removeReq is the identity too). -/
theorem params_iterator_reqs (s : Session) (q : DiscoverParams)
    (hp : s.param = some q) :
    (sdp_client_params_iterator s).1.reqs = removeReq s.reqs q.id := by
  unfold sdp_client_params_iterator
  rw [hp]
  simp only []
  by_cases hin : (s.reqs.any fun r => r.id = q.id) = true
  · rw [if_pos hin]
    split
    · rfl
    · split
      · rename_i s3 ev hs
        exact (ssa_search_effects _ s3 ev hs).1
      · rfl
  · rw [if_neg hin]
    have hall : s.reqs.all (fun r => r.id ≠ q.id) = true := by
      simp only [List.any_eq_true, decide_eq_true_eq, not_exists, not_and] at hin
      simp only [List.all_eq_true, decide_eq_true_eq]
      intro r hr
      exact hin r hr
    rw [removeReq_not_mem s.reqs q.id hall]

/-- sdp_client_notify_result for a not resolved UUID invokes the callback of
the active query exactly once with a NULL record buffer and changes nothing. -/
theorem notify_not_resolved (s : Session) (q : DiscoverParams)
    (hp : s.param = some q) :
    sdp_client_notify_result s false =
      (s, [.callback q.id .notResolved (reqIds s.reqs) (q.func .notResolved)]) := by
  unfold sdp_client_notify_result
  rw [hp]
  simp

/-- C2 amended: a received PDU whose opcode is the SDP error response (and
which is at least header sized) is dropped silently: no callback is invoked,
no request is sent, and the whole session state is unchanged; the queue does
not advance. -/
theorem error_rsp_dropped (s : Session) (buf : List Nat)
    (hlen : sdpHdrSize ≤ buf.length)
    (hop : buf.getD 0 0 = BT_SDP_ERROR_RSP) :
    sdp_client_receive s buf = (s, []) := by
  unfold sdp_client_receive
  rw [if_neg (by omega), if_pos hop]

/-- Witness for the C2 amended theorem at a concrete input. -/
theorem error_rsp_dropped_witness :
    sdpHdrSize ≤ ([1, 0, 0, 0, 0] : List Nat).length ∧
    ([1, 0, 0, 0, 0] : List Nat).getD 0 0 = BT_SDP_ERROR_RSP ∧
    sdp_client_receive sessFresh [1, 0, 0, 0, 0] = (sessFresh, []) :=
  ⟨by decide, by decide,
    error_rsp_dropped sessFresh [1, 0, 0, 0, 0] (by decide) (by decide)⟩

/-- C2 counterexample: on a concrete session with one pending query, an
error response PDU produces no events at all and leaves the queue unchanged,
contradicting the claim that the callback is invoked and the queue advances. -/
theorem error_rsp_claim_counterexample :
    (sdp_client_receive sessFresh [1, 0, 0, 0, 0]).2 = [] ∧
    (sdp_client_receive sessFresh [1, 0, 0, 0, 0]).1.reqs = sessFresh.reqs ∧
    sessFresh.reqs ≠ [] := by
  refine ⟨rfl, rfl, by simp [sessFresh]⟩

/-- C10: sdp_client_get_total reads and consumes the total octet count
element only when the session continuation state is empty on entry (first
frame); on a later frame of the same transfer it consumes zero bytes and
reports total zero, leaving all remaining frame bytes as payload; on a first
frame it consumes the SEQ8 or SEQ16 element and returns the declared total. -/
theorem get_total_first_frame_only (s s2 : Session) (body rest : List Nat)
    (t8 hi lo : Nat) :
    (s.cstate.length ≠ 0 → sdp_client_get_total s body = (0, 0, body)) ∧
    (s2.cstate.length = 0 →
      sdp_client_get_total s2 (BT_SDP_SEQ8 :: t8 :: rest) = (2, t8, rest) ∧
      sdp_client_get_total s2 (BT_SDP_SEQ16 :: hi :: lo :: rest) =
        (3, be16dec hi lo, rest)) := by
  constructor
  · intro h
    unfold sdp_client_get_total
    rw [if_neg h]
  · intro h
    unfold sdp_client_get_total
    constructor
    · rw [if_pos h]
      simp
    · rw [if_pos h]
      simp [BT_SDP_SEQ8, BT_SDP_SEQ16]

/-- Witness for C10 at concrete first-frame and mid-transfer sessions. -/
theorem get_total_first_frame_only_witness :
    sdp_client_get_total sessMid [9, 9] = (0, 0, [9, 9]) ∧
    sdp_client_get_total sessFresh [BT_SDP_SEQ8, 7, 9] = (2, 7, [9]) ∧
    sdp_client_get_total sessFresh [BT_SDP_SEQ16, 1, 2, 9] = (3, be16dec 1 2, [9]) :=
  ⟨(get_total_first_frame_only sessMid sessFresh [9, 9] [9] 7 1 2).1 (by decide),
   (get_total_first_frame_only sessMid sessFresh [9, 9] [9] 7 1 2).2 (by decide)⟩

/-- C6: encoding a continuation state whose data has its declared length
appends the length byte followed by exactly those bytes (a single zero byte
when the length is zero), and decoding the block back yields the same state,
so the round trip is the identity for every length including 1..16. -/
theorem cstate_block_roundtrip (c : PduCstate) (hd : c.data.length = c.length) :
    decodeCstateBlock (encodeCstateBlock c) = c ∧
    encodeCstateBlock c = (if c.length = 0 then [0] else c.length :: c.data) := by
  obtain ⟨len, data⟩ := c
  simp only at hd
  by_cases h0 : len = 0
  · subst h0
    have hnil : data = [] := List.eq_nil_of_length_eq_zero hd
    subst hnil
    constructor
    · simp [encodeCstateBlock, decodeCstateBlock]
    · simp [encodeCstateBlock]
  · have htake : data.take len = data := List.take_of_length_le (le_of_eq hd)
    constructor
    · simp [encodeCstateBlock, decodeCstateBlock, h0, htake]
    · simp [encodeCstateBlock, h0, htake]

/-- Witness for C6 at a concrete three byte continuation. -/
theorem cstate_block_roundtrip_witness :
    (⟨3, [9, 8, 7]⟩ : PduCstate).data.length = (⟨3, [9, 8, 7]⟩ : PduCstate).length ∧
    decodeCstateBlock (encodeCstateBlock ⟨3, [9, 8, 7]⟩) = ⟨3, [9, 8, 7]⟩ ∧
    encodeCstateBlock ⟨3, [9, 8, 7]⟩ =
      (if (3 : Nat) = 0 then [0] else 3 :: [9, 8, 7]) :=
  ⟨by decide, (cstate_block_roundtrip ⟨3, [9, 8, 7]⟩ (by decide)).1,
    by simpa using (cstate_block_roundtrip ⟨3, [9, 8, 7]⟩ (by decide)).2⟩

/-- C3: every malformed response PDU (header too short, declared parameter
length not matching the remaining byte count, transaction id differing from
the session value, attribute byte count below 2, embedded continuation
length above 16, or attribute bytes plus continuation length exceeding the
declared parameter length) is dropped: no callback runs and the session,
including continuation state, reassembly buffer, active query and request
queue, is returned unchanged. -/
theorem malformed_pdu_dropped (s : Session) (buf : List Nat)
    (h : malformedPdu s buf) :
    sdp_client_receive s buf = (s, []) := by
  unfold malformedPdu at h
  unfold sdp_client_receive
  by_cases h1 : buf.length < sdpHdrSize
  · rw [if_pos h1]
  · rw [if_neg h1]
    by_cases h2 : buf.getD 0 0 = BT_SDP_ERROR_RSP
    · rw [if_pos h2]
    · rw [if_neg h2]
      by_cases h3 : (buf.drop sdpHdrSize).length ≠ be16dec (buf.getD 3 0) (buf.getD 4 0)
      · rw [if_pos h3]
      · rw [if_neg h3]
        by_cases h4 : be16dec (buf.getD 1 0) (buf.getD 2 0) ≠ s.tid
        · rw [if_pos h4]
        · rw [if_neg h4]
          by_cases h5 : buf.getD 0 0 = BT_SDP_SVC_SEARCH_ATTR_RSP
          · rw [if_pos h5]
            by_cases h6 : be16dec ((buf.drop sdpHdrSize).getD 0 0)
                ((buf.drop sdpHdrSize).getD 1 0) < 2
            · rw [if_pos h6]
            · rw [if_neg h6]
              by_cases h7 : BT_SDP_MAX_PDU_CSTATE_LEN <
                  ((buf.drop sdpHdrSize).drop 2).getD
                    (be16dec ((buf.drop sdpHdrSize).getD 0 0)
                      ((buf.drop sdpHdrSize).getD 1 0)) 0
              · rw [if_pos h7]
              · rw [if_neg h7]
                by_cases h8 : be16dec (buf.getD 3 0) (buf.getD 4 0) <
                    be16dec ((buf.drop sdpHdrSize).getD 0 0)
                      ((buf.drop sdpHdrSize).getD 1 0) +
                    ((buf.drop sdpHdrSize).drop 2).getD
                      (be16dec ((buf.drop sdpHdrSize).getD 0 0)
                        ((buf.drop sdpHdrSize).getD 1 0)) 0
                · rw [if_pos h8]
                · exfalso
                  omega
          · rw [if_neg h5]

/-- Witness for C3: a header sized frame with a mismatched transaction id. -/
theorem malformed_pdu_dropped_witness :
    malformedPdu sessFresh [7, 0, 9, 0, 0] ∧
    sdp_client_receive sessFresh [7, 0, 9, 0, 0] = (sessFresh, []) :=
  ⟨by unfold malformedPdu; right; right; left; decide,
    malformed_pdu_dropped sessFresh [7, 0, 9, 0, 0]
      (by unfold malformedPdu; right; right; left; decide)⟩


/-- Shared helper: on a no-record frame the receive handler first notifies
the active query with a not resolved result and then runs the queue
iterator, in that order. -/
theorem receive_no_record (s : Session) (q : DiscoverParams) (x y : Nat)
    (hp : s.param = some q) (hcs : s.cstate.length = 0)
    (htid : s.tid < 65536) :
    sdp_client_receive s (noRecordFrame s.tid x y) =
      ((sdp_client_params_iterator s).1,
        Event.callback q.id .notResolved (reqIds s.reqs) (q.func .notResolved)
          :: (sdp_client_params_iterator s).2) := by
  have hbe : be16dec (s.tid / 256 % 256) (s.tid % 256) = s.tid := be16_round s.tid htid
  have h05 : be16dec 0 5 = 5 := by unfold be16dec; omega
  have h02 : be16dec 0 2 = 2 := by unfold be16dec; omega
  simp [noRecordFrame, sdp_client_receive, be16enc, h05, h02, hbe, hcs,
    BT_SDP_SVC_SEARCH_ATTR_RSP, BT_SDP_ERROR_RSP, BT_SDP_MAX_PDU_CSTATE_LEN,
    sdpHdrSize, notify_not_resolved s q hp, List.getD_cons_zero, List.getD_cons_succ]

/-- Prepending a callback event increments the callback count. -/
theorem countCallbacks_cons_callback (a : Nat) (b : SdpClientResult)
    (c : List Nat) (d : Nat) (evs : List Event) :
    countCallbacks (Event.callback a b c d :: evs) = countCallbacks evs + 1 := by
  simp [countCallbacks, List.filter, isCallbackEv]

/-- C4: a response frame with attribute byte count exactly 2, embedded
continuation length 0, arriving with the session continuation empty, makes
the session invoke the active query callback exactly once with a not
resolved result (NULL record buffer), append nothing to the reassembly
buffer, and advance the queue past the completed query. -/
theorem no_record_short_circuit (s : Session) (q : DiscoverParams) (x y : Nat)
    (hp : s.param = some q) (hcs : s.cstate.length = 0) (htid : s.tid < 65536) :
    sdp_client_receive s (noRecordFrame s.tid x y) =
      ((sdp_client_params_iterator s).1,
        Event.callback q.id .notResolved (reqIds s.reqs) (q.func .notResolved)
          :: (sdp_client_params_iterator s).2) ∧
    countCallbacks (sdp_client_receive s (noRecordFrame s.tid x y)).2 = 1 ∧
    (sdp_client_receive s (noRecordFrame s.tid x y)).1.recBuf = s.recBuf ∧
    (sdp_client_receive s (noRecordFrame s.tid x y)).1.reqs = removeReq s.reqs q.id := by
  have hmain := receive_no_record s q x y hp hcs htid
  refine ⟨hmain, ?_, ?_, ?_⟩
  · rw [hmain]
    simp only [countCallbacks_cons_callback, params_iterator_no_callback]
  · rw [hmain]
    exact params_iterator_recBuf s
  · rw [hmain]
    exact params_iterator_reqs s q hp

/-- Witness for C4 at a concrete session and frame. -/
theorem no_record_short_circuit_witness :
    sessFresh.param = some qA ∧ sessFresh.cstate.length = 0 ∧ sessFresh.tid < 65536 ∧
    (sdp_client_receive sessFresh (noRecordFrame sessFresh.tid 3 4) =
      ((sdp_client_params_iterator sessFresh).1,
        Event.callback qA.id .notResolved (reqIds sessFresh.reqs) (qA.func .notResolved)
          :: (sdp_client_params_iterator sessFresh).2) ∧
    countCallbacks (sdp_client_receive sessFresh (noRecordFrame sessFresh.tid 3 4)).2 = 1 ∧
    (sdp_client_receive sessFresh (noRecordFrame sessFresh.tid 3 4)).1.recBuf = sessFresh.recBuf ∧
    (sdp_client_receive sessFresh (noRecordFrame sessFresh.tid 3 4)).1.reqs = removeReq sessFresh.reqs qA.id) :=
  ⟨rfl, by decide, by decide,
    no_record_short_circuit sessFresh qA 3 4 rfl (by decide) (by decide)⟩

/-- Every event the delivery loop emits is a callback carrying the queue
snapshot the loop was started with. -/
theorem notifyLoop_events_aux (f : SdpClientResult → Nat) (qid : Nat)
    (qids : List Nat) :
    ∀ (n : Nat) (data : List Nat), data.length ≤ n →
      ∀ ev ∈ (notifyLoop f qid qids data).1, ∃ res ret,
        ev = Event.callback qid res qids ret := by
  intro n
  induction n with
  | zero =>
      intro data hlen ev hmem
      have hnil : data = [] := List.eq_nil_of_length_eq_zero (by omega)
      subst hnil
      simp [notifyLoop] at hmem
  | succ n ih =>
      intro data hlen ev hmem
      match data with
      | [] => simp [notifyLoop] at hmem
      | b :: bs =>
          rw [notifyLoop] at hmem
          simp only [] at hmem
          by_cases hstop : f (SdpClientResult.resolved
              ((get_record_len (b :: bs)).2.take (get_record_len (b :: bs)).1)
              (decide ((get_record_len (b :: bs)).1 <
                (get_record_len (b :: bs)).2.length))) =
              BT_SDP_DISCOVER_UUID_STOP
          · simp only [hstop, if_pos, List.mem_singleton] at hmem
            exact ⟨_, _, hmem⟩
          · simp only [hstop, if_neg, if_false, List.mem_cons] at hmem
            rcases hmem with hmem | hmem
            · exact ⟨_, _, hmem⟩
            · have hlt := get_record_len_rest_le b bs
              have hdl := List.length_drop (get_record_len (b :: bs)).1
                (get_record_len (b :: bs)).2
              exact ih ((get_record_len (b :: bs)).2.drop
                (get_record_len (b :: bs)).1) (by simp at hlen ⊢; omega) ev hmem

/-- A trace without callbacks records no queue snapshots. -/
theorem callbackQueues_nil_of_no_callback (evs : List Event)
    (h : countCallbacks evs = 0) : callbackQueues evs = [] := by
  induction evs with
  | nil => rfl
  | cons ev rest ih =>
      cases ev with
      | callback a b c d =>
          simp [countCallbacks, List.filter, isCallbackEv] at h
      | sentRequest t pdu =>
          have h2 : countCallbacks rest = 0 := by
            simpa [countCallbacks, List.filter, isCallbackEv] using h
          simpa [callbackQueues, List.filterMap] using ih h2
      | disconnect =>
          have h2 : countCallbacks rest = 0 := by
            simpa [countCallbacks, List.filter, isCallbackEv] using h
          simpa [callbackQueues, List.filterMap] using ih h2

/-- Record delivery leaves the queue and the active query untouched. -/
theorem notify_result_resolved_state (s : Session) :
    (sdp_client_notify_result s true).1.reqs = s.reqs ∧
    (sdp_client_notify_result s true).1.param = s.param := by
  unfold sdp_client_notify_result
  split
  · exact ⟨rfl, rfl⟩
  · simp

/-- On a complete single-fragment transfer frame (declared total within the
buffer tailroom, trailing continuation empty), sdp_client_receive appends
the payload, then delivers the records, then runs the queue iterator. -/
theorem receive_resolved_total (s : Session) (p : List Nat) (T : Nat)
    (hcs : s.cstate.length = 0) (htid : s.tid < 65536)
    (hpl : p.length + 6 < 65536) (hT16 : T < 65536)
    (hcap : ¬s.recBuf.tailroom < T) :
    sdp_client_receive s (totalFrame s.tid T p) =
      ((sdp_client_params_iterator (sdp_client_notify_result
          { s with recBuf := s.recBuf.addMem p } true).1).1,
        (sdp_client_notify_result { s with recBuf := s.recBuf.addMem p } true).2 ++
        (sdp_client_params_iterator (sdp_client_notify_result
          { s with recBuf := s.recBuf.addMem p } true).1).2) := by
  have htidr : be16dec (s.tid / 256 % 256) (s.tid % 256) = s.tid :=
    be16_round s.tid htid
  have hlen6 : be16dec ((p.length + 6) / 256 % 256) ((p.length + 6) % 256) =
      p.length + 6 := be16_round _ (by omega)
  have hfl : be16dec ((p.length + 3) / 256 % 256) ((p.length + 3) % 256) =
      p.length + 3 := be16_round _ (by omega)
  have hTr : be16dec (T / 256 % 256) (T % 256) = T := be16_round T hT16
  unfold totalFrame sdp_client_receive
  simp only [be16enc, List.cons_append, List.nil_append, List.getD_cons_zero,
    List.getD_cons_succ, List.drop_succ_cons, List.drop_zero, List.length_cons,
    List.length_append, List.length_nil, htidr, hlen6, hfl, hTr,
    getD_append_len, sdpHdrSize, hcs, if_true,
    sdp_client_get_total, BT_SDP_SEQ8, BT_SDP_SEQ16]
  rw [if_neg (by omega)]
  rw [if_neg (by decide)]
  rw [if_neg (by omega)]
  rw [if_neg (by omega)]
  rw [if_neg (by omega)]
  rw [if_neg (by decide)]
  rw [if_neg (by omega)]
  rw [if_neg (by simp only [and_true, true_and]; omega)]
  norm_num [RecBuf.tailroom]
  rw [if_neg (show ¬(s.recBuf.capacity - s.recBuf.data.length < T) from hcap)]
  rw [show List.take ((p.length + 3 + 65536 - 3) % 65536) (p ++ [0]) = p from by
    rw [show (p.length + 3 + 65536 - 3) % 65536 = p.length from by omega,
      List.take_left]]

/-- Record delivery on a resolved UUID, written as the delivery loop over
the buffered bytes with the queue snapshot taken on entry. -/
theorem notify_resolved_eq (s : Session) (q : DiscoverParams)
    (hp : s.param = some q) :
    sdp_client_notify_result s true =
      ({ s with recBuf := { s.recBuf with data :=
          (notifyLoop q.func q.id (reqIds s.reqs) s.recBuf.data).2 } },
        (notifyLoop q.func q.id (reqIds s.reqs) s.recBuf.data).1) := by
  unfold sdp_client_notify_result
  rw [hp]
  simp

/-- Queue snapshots of a trace whose events all carry the same snapshot. -/
theorem callbackQueues_all (evs : List Event) (qid : Nat) (qids : List Nat)
    (h : ∀ ev ∈ evs, ∃ res ret, ev = Event.callback qid res qids ret) :
    ∀ qs ∈ callbackQueues evs, qs = qids := by
  intro qs hmem
  simp only [callbackQueues, List.mem_filterMap] at hmem
  obtain ⟨ev, hev, hsome⟩ := hmem
  obtain ⟨res, ret, rfl⟩ := h ev hev
  simp at hsome
  exact hsome.symm

/-- Concatenation distributes over the queue snapshot extraction. -/
theorem callbackQueues_append (a b : List Event) :
    callbackQueues (a ++ b) = callbackQueues a ++ callbackQueues b := by
  simp [callbackQueues, List.filterMap_append]

/-- C9 amended: for every query resolution, resolved or not resolved, the
queue removes the completed query linkage only after the completion
callback has run: on the no-record path the single not resolved callback
event records the queue as it was on entry, still containing the just
completed query, and on the resolved path every record delivery callback
event records that same entry queue; in both cases the removal is visible
only in the final state. -/
theorem queue_unlink_after_callback
    (s s2 : Session) (q q2 : DiscoverParams) (x y : Nat) (p : List Nat) (T : Nat)
    (hp : s.param = some q) (hcs : s.cstate.length = 0) (htid : s.tid < 65536)
    (hin : q.id ∈ reqIds s.reqs)
    (hp2 : s2.param = some q2) (hcs2 : s2.cstate.length = 0)
    (htid2 : s2.tid < 65536) (hin2 : q2.id ∈ reqIds s2.reqs)
    (hpl : p.length + 6 < 65536) (hT16 : T < 65536)
    (hcap : ¬s2.recBuf.tailroom < T) :
    ((sdp_client_receive s (noRecordFrame s.tid x y)).2.head? =
        some (Event.callback q.id .notResolved (reqIds s.reqs)
          (q.func .notResolved)) ∧
      q.id ∈ reqIds s.reqs ∧
      (sdp_client_receive s (noRecordFrame s.tid x y)).1.reqs =
        removeReq s.reqs q.id) ∧
    ((∀ qs ∈ callbackQueues (sdp_client_receive s2 (totalFrame s2.tid T p)).2,
        qs = reqIds s2.reqs) ∧
      q2.id ∈ reqIds s2.reqs ∧
      (sdp_client_receive s2 (totalFrame s2.tid T p)).1.reqs =
        removeReq s2.reqs q2.id) := by
  constructor
  · have hmain := receive_no_record s q x y hp hcs htid
    refine ⟨by rw [hmain]; rfl, hin, ?_⟩
    rw [hmain]
    exact params_iterator_reqs s q hp
  · have hrr := receive_resolved_total s2 p T hcs2 htid2 hpl hT16 hcap
    have hp2a : ({ s2 with recBuf := s2.recBuf.addMem p } : Session).param =
        some q2 := hp2
    have hnr := notify_resolved_eq { s2 with recBuf := s2.recBuf.addMem p }
      q2 hp2a
    have hst := notify_result_resolved_state
      ({ s2 with recBuf := s2.recBuf.addMem p })
    refine ⟨?_, hin2, ?_⟩
    · intro qs hmem
      rw [hrr] at hmem
      simp only [callbackQueues_append, List.mem_append] at hmem
      rcases hmem with hmem | hmem
      · rw [hnr] at hmem
        simp only [] at hmem
        refine callbackQueues_all _ q2.id (reqIds s2.reqs) ?_ qs hmem
        intro ev hev
        exact notifyLoop_events_aux q2.func q2.id (reqIds s2.reqs)
          (s2.recBuf.data ++ p).length (s2.recBuf.data ++ p) (le_refl _) ev hev
      · rw [callbackQueues_nil_of_no_callback _
          (params_iterator_no_callback _)] at hmem
        simp at hmem
    · rw [hrr]
      rw [params_iterator_reqs _ q2 (by rw [hst.2]; exact hp2a), hst.1]

/-- Witness for the C9 amended theorem at concrete sessions, exercising
both the not resolved path and the resolved delivery path. -/
theorem queue_unlink_after_callback_witness :
    (((sdp_client_receive sessFresh (noRecordFrame sessFresh.tid 5 6)).2.head? =
        some (Event.callback qA.id .notResolved (reqIds sessFresh.reqs)
          (qA.func .notResolved)) ∧
      qA.id ∈ reqIds sessFresh.reqs ∧
      (sdp_client_receive sessFresh (noRecordFrame sessFresh.tid 5 6)).1.reqs =
        removeReq sessFresh.reqs qA.id) ∧
    ((∀ qs ∈ callbackQueues (sdp_client_receive sessFresh
          (totalFrame sessFresh.tid 4 [0x35, 2, 0xAA, 0xBB])).2,
        qs = reqIds sessFresh.reqs) ∧
      qA.id ∈ reqIds sessFresh.reqs ∧
      (sdp_client_receive sessFresh
          (totalFrame sessFresh.tid 4 [0x35, 2, 0xAA, 0xBB])).1.reqs =
        removeReq sessFresh.reqs qA.id)) :=
  queue_unlink_after_callback sessFresh sessFresh qA qA 5 6
    [0x35, 2, 0xAA, 0xBB] 4 rfl (by decide) (by decide) (by decide) rfl
    (by decide) (by decide) (by decide) (by decide) (by decide) (by decide)

/-- C9 counterexample: at a concrete no-record resolution the callback
event records the queue still containing the just completed query (id 1),
contradicting the claim that the linkage is removed before the callback. -/
theorem unlink_before_callback_counterexample :
    (sdp_client_receive sessFresh (noRecordFrame 0 0 0)).2 =
      [Event.callback 1 .notResolved [1] BT_SDP_DISCOVER_UUID_CONTINUE,
        Event.disconnect] ∧
    (1 : Nat) ∈ [(1 : Nat)] := by
  refine ⟨by decide, by decide⟩


/-- C7 amended: when the first frame of a transfer declares a total
exceeding the remaining tailroom of the reassembly buffer, the resolution
of the current UUID is abandoned with zero records delivered (no callback
at all), the queue still advances past the query, and the reassembly
buffer contents are left exactly unchanged (so its occupied length is zero
afterwards only when it was zero when the transfer began). -/
theorem over_capacity_abandons (s : Session) (q : DiscoverParams)
    (p : List Nat) (T : Nat)
    (hp : s.param = some q) (hcs : s.cstate.length = 0)
    (htid : s.tid < 65536) (hpl : p.length + 6 < 65536) (hT : T < 65536)
    (hover : s.recBuf.tailroom < T) :
    sdp_client_receive s (totalFrame s.tid T p) = sdp_client_params_iterator s ∧
    countCallbacks (sdp_client_receive s (totalFrame s.tid T p)).2 = 0 ∧
    (sdp_client_receive s (totalFrame s.tid T p)).1.recBuf = s.recBuf ∧
    (sdp_client_receive s (totalFrame s.tid T p)).1.reqs = removeReq s.reqs q.id := by
  have htidr : be16dec (s.tid / 256 % 256) (s.tid % 256) = s.tid :=
    be16_round s.tid htid
  have hlen6 : be16dec ((p.length + 6) / 256 % 256) ((p.length + 6) % 256) =
      p.length + 6 := be16_round _ (by omega)
  have hfl : be16dec ((p.length + 3) / 256 % 256) ((p.length + 3) % 256) =
      p.length + 3 := be16_round _ (by omega)
  have hTr : be16dec (T / 256 % 256) (T % 256) = T := be16_round T hT
  have hmain : sdp_client_receive s (totalFrame s.tid T p) =
      sdp_client_params_iterator s := by
    unfold totalFrame sdp_client_receive
    simp only [be16enc, List.cons_append, List.nil_append, List.getD_cons_zero,
      List.getD_cons_succ, List.drop_succ_cons, List.drop_zero, List.length_cons,
      List.length_append, List.length_nil, htidr, hlen6, hfl, hTr,
      getD_append_len, sdpHdrSize, hcs, if_true,
      sdp_client_get_total, BT_SDP_SEQ8, BT_SDP_SEQ16]
    rw [if_neg (by omega)]
    rw [if_neg (by decide)]
    rw [if_neg (by omega)]
    rw [if_neg (by omega)]
    rw [if_neg (by omega)]
    rw [if_neg (by decide)]
    rw [if_neg (by omega)]
    rw [if_neg (by simp only [and_true, true_and]; omega)]
    norm_num
    intro hle
    exact absurd hover (by omega)
  refine ⟨hmain, ?_, ?_, ?_⟩
  · rw [hmain]
    exact params_iterator_no_callback s
  · rw [hmain]
    exact params_iterator_recBuf s
  · rw [hmain]
    exact params_iterator_reqs s q hp


/-- Witness for the C7 amended theorem at a concrete session. -/
theorem over_capacity_abandons_witness :
    sessLeftover.recBuf.tailroom < 2 ∧
    (sdp_client_receive sessLeftover (totalFrame sessLeftover.tid 2 []) =
        sdp_client_params_iterator sessLeftover ∧
      countCallbacks (sdp_client_receive sessLeftover (totalFrame sessLeftover.tid 2 [])).2 = 0 ∧
      (sdp_client_receive sessLeftover (totalFrame sessLeftover.tid 2 [])).1.recBuf = sessLeftover.recBuf ∧
      (sdp_client_receive sessLeftover (totalFrame sessLeftover.tid 2 [])).1.reqs = removeReq sessLeftover.reqs qA.id) :=
  ⟨by decide, over_capacity_abandons sessLeftover qA [] 2 rfl (by decide)
    (by decide) (by decide) (by decide) (by decide)⟩

theorem over_capacity_claim_counterexample :
    sessLeftover.cstate.length = 0 ∧
    sessLeftover.recBuf.tailroom < 2 ∧
    countCallbacks (sdp_client_receive sessLeftover (totalFrame sessLeftover.tid 2 [])).2 = 0 ∧
    reqIds (sdp_client_receive sessLeftover (totalFrame sessLeftover.tid 2 [])).1.reqs = [2] ∧
    (sdp_client_receive sessLeftover (totalFrame sessLeftover.tid 2 [])).1.recBuf.data = [9, 9, 9] ∧
    ([9, 9, 9] : List Nat).length ≠ 0 := by
  decide


/-- C8 amended: during record delivery each record is passed to the
callback together with the flag telling whether more records remain; when
the callback answers with the stop signal after a record, delivery ends
immediately with no further callback invocation, and the remaining
unconsumed record bytes stay in the reassembly buffer (they are not
discarded). -/
theorem stop_ends_delivery (s : Session) (q : DiscoverParams)
    (rl : Nat) (rest : List Nat) (hp : s.param = some q)
    (hdata : s.recBuf.data = BT_SDP_SEQ8 :: rl :: rest)
    (hstop : q.func (.resolved (rest.take rl) (decide (rl < rest.length))) =
      BT_SDP_DISCOVER_UUID_STOP) :
    sdp_client_notify_result s true =
      ({ s with recBuf := { s.recBuf with data := rest.drop rl } },
        [Event.callback q.id (.resolved (rest.take rl) (decide (rl < rest.length)))
          (reqIds s.reqs) BT_SDP_DISCOVER_UUID_STOP]) := by
  unfold sdp_client_notify_result
  rw [hp]
  simp only [hdata, notifyLoop, get_record_len, BT_SDP_SEQ8, if_true]
  norm_num
  rw [hstop]
  simp

/-- Witness for the C8 amended theorem at a concrete batch. -/
theorem stop_ends_delivery_witness :
    sessThreeRecords.param = some qStop ∧
    sessThreeRecords.recBuf.data =
      BT_SDP_SEQ8 :: 1 :: [0xAA, 0x35, 1, 0xBB, 0x35, 1, 0xCC] ∧
    sdp_client_notify_result sessThreeRecords true =
      ({ sessThreeRecords with recBuf := { sessThreeRecords.recBuf with
          data := List.drop 1 [0xAA, 0x35, 1, 0xBB, 0x35, 1, 0xCC] } },
        [Event.callback qStop.id
          (.resolved (List.take 1 [0xAA, 0x35, 1, 0xBB, 0x35, 1, 0xCC])
            (decide (1 < ([0xAA, 0x35, 1, 0xBB, 0x35, 1, 0xCC] : List Nat).length)))
          (reqIds sessThreeRecords.reqs) BT_SDP_DISCOVER_UUID_STOP]) :=
  ⟨rfl, by decide,
    stop_ends_delivery sessThreeRecords qStop 1 [0xAA, 0x35, 1, 0xBB, 0x35, 1, 0xCC]
      rfl (by decide) rfl⟩

/-- C8 counterexample: with three one byte records buffered and a callback
that always stops, exactly one record is delivered and the two remaining
records (six bytes) are still in the buffer afterwards, contradicting the
claim that the remaining unconsumed record bytes are discarded. -/
theorem stop_claim_counterexample :
    (sdp_client_notify_result sessThreeRecords true).2 =
      [Event.callback 3 (.resolved [0xAA] true) [3] BT_SDP_DISCOVER_UUID_STOP] ∧
    (sdp_client_notify_result sessThreeRecords true).1.recBuf.data =
      [0x35, 1, 0xBB, 0x35, 1, 0xCC] ∧
    ([0x35, 1, 0xBB, 0x35, 1, 0xCC] : List Nat) ≠ [] := by
  refine ⟨?_, ?_, by decide⟩ <;>
    simp [sdp_client_notify_result, sessThreeRecords, notifyLoop, get_record_len,
      qStop, stopCallback, BT_SDP_SEQ8, BT_SDP_SEQ16, BT_SDP_DISCOVER_UUID_STOP,
      reqIds]

/-- A continuation block of a bounded state takes at most 17 bytes. -/
theorem encodeCstateBlock_length_le (c : PduCstate) (hc : c.length ≤ 16) :
    (encodeCstateBlock c).length ≤ 17 := by
  unfold encodeCstateBlock
  split
  · simp
  · simp [List.length_take]
    omega

/-- In every successfully encoded request the 16-bit parameter length field
of the header equals the number of body bytes following the header. -/
theorem ssa_paramlen_hdr (u : BtUuid) (c : PduCstate) (tid : Nat) (pdu : List Nat)
    (hbound : ((encodeSsaBody u c).getD []).length < 65536)
    (h : encodeSsaPdu u c tid = some pdu) :
    be16dec (pdu.getD 3 0) (pdu.getD 4 0) + sdpHdrSize = pdu.length := by
  unfold encodeSsaPdu at h
  rcases hb : encodeSsaBody u c with _ | body
  · rw [hb] at h
    exact absurd h (by simp)
  · rw [hb] at h
    simp only [Option.some.injEq] at h
    subst h
    rw [hb] at hbound
    simp only [Option.getD_some] at hbound
    have hr : be16dec (body.length / 256 % 256) (body.length % 256) = body.length :=
      be16_round body.length hbound
    simp [be16enc, List.getD_cons_succ, List.getD_cons_zero, hr, sdpHdrSize]

/-- C5: for a 16, 32 or 128-bit UUID the encoded search attribute request
contains a UUID data element whose declared length byte (at offset 6 of the
PDU, right after the sequence tag) is 3, 5 or 17 respectively, the 16-bit
parameter length field of the header equals the number of encoded body
bytes following the header, and encoding fails for a UUID of unknown type. -/
theorem ssa_encode_widths (v16 v32 t tid : Nat) (v128 : List Nat) (c : PduCstate)
    (hc : c.length ≤ 16) (h128 : v128.length = 16) :
    ((encodeSsaPdu (.u16 v16) c tid).isSome ∧
      ((encodeSsaPdu (.u16 v16) c tid).getD []).getD 6 0 = 3 ∧
      be16dec (((encodeSsaPdu (.u16 v16) c tid).getD []).getD 3 0)
          (((encodeSsaPdu (.u16 v16) c tid).getD []).getD 4 0) + sdpHdrSize =
        ((encodeSsaPdu (.u16 v16) c tid).getD []).length) ∧
    ((encodeSsaPdu (.u32 v32) c tid).isSome ∧
      ((encodeSsaPdu (.u32 v32) c tid).getD []).getD 6 0 = 5 ∧
      be16dec (((encodeSsaPdu (.u32 v32) c tid).getD []).getD 3 0)
          (((encodeSsaPdu (.u32 v32) c tid).getD []).getD 4 0) + sdpHdrSize =
        ((encodeSsaPdu (.u32 v32) c tid).getD []).length) ∧
    ((encodeSsaPdu (.u128 v128) c tid).isSome ∧
      ((encodeSsaPdu (.u128 v128) c tid).getD []).getD 6 0 = 17 ∧
      be16dec (((encodeSsaPdu (.u128 v128) c tid).getD []).getD 3 0)
          (((encodeSsaPdu (.u128 v128) c tid).getD []).getD 4 0) + sdpHdrSize =
        ((encodeSsaPdu (.u128 v128) c tid).getD []).length) ∧
    encodeSsaPdu (.unknown t) c tid = none := by
  have hcb := encodeCstateBlock_length_le c hc
  refine ⟨⟨?_, ?_, ?_⟩, ⟨?_, ?_, ?_⟩, ⟨?_, ?_, ?_⟩, rfl⟩
  · simp [encodeSsaPdu, encodeSsaBody, encodeUuidElem]
  · simp [encodeSsaPdu, encodeSsaBody, encodeUuidElem, be16enc]
  · refine ssa_paramlen_hdr (.u16 v16) c tid _ ?_ ?_
    · simp [encodeSsaBody, encodeUuidElem, be16enc]
      omega
    · simp [encodeSsaPdu, encodeSsaBody, encodeUuidElem]
  · simp [encodeSsaPdu, encodeSsaBody, encodeUuidElem]
  · simp [encodeSsaPdu, encodeSsaBody, encodeUuidElem, be16enc, be32enc]
  · refine ssa_paramlen_hdr (.u32 v32) c tid _ ?_ ?_
    · simp [encodeSsaBody, encodeUuidElem, be16enc, be32enc]
      omega
    · simp [encodeSsaPdu, encodeSsaBody, encodeUuidElem]
  · simp [encodeSsaPdu, encodeSsaBody, encodeUuidElem]
  · simp [encodeSsaPdu, encodeSsaBody, encodeUuidElem, be16enc]
  · refine ssa_paramlen_hdr (.u128 v128) c tid _ ?_ ?_
    · simp [encodeSsaBody, encodeUuidElem, be16enc, h128]
      omega
    · simp [encodeSsaPdu, encodeSsaBody, encodeUuidElem]


/-- Witness for C5 at concrete UUIDs of the three widths. -/
theorem ssa_encode_widths_witness :
    (((encodeSsaPdu (.u16 0x1234) ⟨0, []⟩ 7).isSome ∧
      ((encodeSsaPdu (.u16 0x1234) ⟨0, []⟩ 7).getD []).getD 6 0 = 3 ∧
      be16dec (((encodeSsaPdu (.u16 0x1234) ⟨0, []⟩ 7).getD []).getD 3 0)
          (((encodeSsaPdu (.u16 0x1234) ⟨0, []⟩ 7).getD []).getD 4 0) + sdpHdrSize =
        ((encodeSsaPdu (.u16 0x1234) ⟨0, []⟩ 7).getD []).length) ∧
    ((encodeSsaPdu (.u32 0x11223344) ⟨0, []⟩ 7).isSome ∧
      ((encodeSsaPdu (.u32 0x11223344) ⟨0, []⟩ 7).getD []).getD 6 0 = 5 ∧
      be16dec (((encodeSsaPdu (.u32 0x11223344) ⟨0, []⟩ 7).getD []).getD 3 0)
          (((encodeSsaPdu (.u32 0x11223344) ⟨0, []⟩ 7).getD []).getD 4 0) + sdpHdrSize =
        ((encodeSsaPdu (.u32 0x11223344) ⟨0, []⟩ 7).getD []).length) ∧
    ((encodeSsaPdu (.u128 u128ex) ⟨0, []⟩ 7).isSome ∧
      ((encodeSsaPdu (.u128 u128ex) ⟨0, []⟩ 7).getD []).getD 6 0 = 17 ∧
      be16dec (((encodeSsaPdu (.u128 u128ex) ⟨0, []⟩ 7).getD []).getD 3 0)
          (((encodeSsaPdu (.u128 u128ex) ⟨0, []⟩ 7).getD []).getD 4 0) + sdpHdrSize =
        ((encodeSsaPdu (.u128 u128ex) ⟨0, []⟩ 7).getD []).length) ∧
    encodeSsaPdu (.unknown 9) ⟨0, []⟩ 7 = none) :=
  ssa_encode_widths 0x1234 0x11223344 9 7 u128ex ⟨0, []⟩ (by decide) (by decide)

/-- Dropping a prefix and one more byte from an append leaves the tail. -/
theorem drop_append_cons (w : Nat) (p c : List Nat) :
    (p ++ w :: c).drop (p.length + 1) = c := by
  have h : p ++ w :: c = (p ++ [w]) ++ c := by simp
  have hl : (p ++ [w]).length = p.length + 1 := by simp
  rw [h, ← hl, List.drop_left]

/-- C1: for a two frame transfer (first frame arriving with the session
continuation empty, declaring total T and carrying payload p1 and a nonzero
trailing continuation c of up to 16 bytes; second frame carrying the
remaining payload p2 with p1 and p2 lengths summing to T and continuation
length zero), the session caches c as its continuation state, issues
exactly one continued search request between the frames reusing the same
active query (the sent PDU encodes the same query UUID with c), and at
delivery time the reassembly buffer holds exactly p1 followed by p2, whose
combined length is the declared total T. -/
theorem two_frame_reassembly (q : DiscoverParams) (rs : List DiscoverParams)
    (p1 p2 c : List Nat) (T cap t : Nat) (ue : List Nat)
    (hu : encodeUuidElem q.uuid = some ue)
    (hc : 1 ≤ c.length) (hc16 : c.length ≤ 16)
    (hT : p1.length + p2.length = T)
    (hTcap : T ≤ cap)
    (ht : t < 65536)
    (hT16 : T < 65536)
    (hp1 : p1.length + 22 < 65536)
    (hp2 : 2 ≤ p2.length)
    (hp2b : p2.length + 3 < 65536) :
    sdp_client_receive ⟨rs, t, some q, ⟨0, []⟩, ⟨[], cap⟩⟩
        (BT_SDP_SVC_SEARCH_ATTR_RSP :: be16enc t ++
          be16enc (p1.length + 6 + c.length) ++
          be16enc (p1.length + 3) ++ BT_SDP_SEQ16 :: be16enc T ++ p1 ++
          c.length :: c) =
      (⟨rs, (t + 1) % 65536, some q, ⟨c.length, c⟩, ⟨p1, cap⟩⟩,
        [Event.sentRequest ((t + 1) % 65536)
          ((encodeSsaPdu q.uuid ⟨c.length, c⟩ ((t + 1) % 65536)).getD [])]) ∧
    sdp_client_receive ⟨rs, (t + 1) % 65536, some q, ⟨c.length, c⟩, ⟨p1, cap⟩⟩
        (BT_SDP_SVC_SEARCH_ATTR_RSP :: be16enc ((t + 1) % 65536) ++
          be16enc (p2.length + 3) ++ be16enc p2.length ++ p2 ++ [0]) =
      ((sdp_client_params_iterator (sdp_client_notify_result
          ⟨rs, (t + 1) % 65536, some q, ⟨c.length, c⟩, ⟨p1 ++ p2, cap⟩⟩ true).1).1,
        (sdp_client_notify_result
          ⟨rs, (t + 1) % 65536, some q, ⟨c.length, c⟩, ⟨p1 ++ p2, cap⟩⟩ true).2 ++
        (sdp_client_params_iterator (sdp_client_notify_result
          ⟨rs, (t + 1) % 65536, some q, ⟨c.length, c⟩, ⟨p1 ++ p2, cap⟩⟩ true).1).2) ∧
    (p1 ++ p2).length = T := by
  have htr : be16dec (t / 256 % 256) (t % 256) = t := be16_round t ht
  have hlenr : be16dec ((p1.length + 6 + c.length) / 256 % 256)
      ((p1.length + 6 + c.length) % 256) = p1.length + 6 + c.length :=
    be16_round _ (by omega)
  have hflr : be16dec ((p1.length + 3) / 256 % 256) ((p1.length + 3) % 256) =
      p1.length + 3 := be16_round _ (by omega)
  have hTr : be16dec (T / 256 % 256) (T % 256) = T := be16_round T hT16
  have hw1 : (p1.length + 3 + 65536 - 3) % 65536 = p1.length := by omega
  have htk : c.take c.length = c := List.take_of_length_le (by omega)
  have hcne : ¬c = [] := fun h => by subst h; simp at hc
  have ht2 : (t + 1) % 65536 < 65536 := Nat.mod_lt _ (by omega)
  have htr2 : be16dec ((t + 1) % 65536 / 256 % 256) ((t + 1) % 65536 % 256) =
      (t + 1) % 65536 := be16_round _ ht2
  have hlen2 : be16dec ((p2.length + 3) / 256 % 256) ((p2.length + 3) % 256) =
      p2.length + 3 := be16_round _ (by omega)
  have hfl2 : be16dec (p2.length / 256 % 256) (p2.length % 256) = p2.length :=
    be16_round _ (by omega)
  refine ⟨?_, ?_, ?_⟩
  · unfold sdp_client_receive
    simp only [be16enc, List.cons_append, List.nil_append, List.getD_cons_zero,
      List.getD_cons_succ, List.drop_succ_cons, List.drop_zero, List.length_cons,
      List.length_append, List.length_nil, htr, hlenr, hflr, hTr,
      getD_append_len, drop_append_cons, List.take_left, sdpHdrSize,
      sdp_client_get_total, BT_SDP_SEQ8, BT_SDP_SEQ16, hw1, htk]
    rw [if_neg (by omega)]
    rw [if_neg (by decide)]
    rw [if_neg (by omega)]
    rw [if_neg (by omega)]
    rw [if_pos trivial]
    rw [if_neg (by omega)]
    rw [if_neg (by simp only [BT_SDP_MAX_PDU_CSTATE_LEN]; omega)]
    rw [if_neg (by omega)]
    rw [if_neg (by simp only [and_true, true_and]; omega)]
    norm_num [RecBuf.tailroom]
    rw [if_neg (by omega)]
    rw [show List.take ((p1.length + 3 + 65536 - 3) % 65536)
        (p1 ++ c.length :: c) = p1 from by rw [hw1, List.take_left]]
    simp only [sdp_client_ssa_search, encodeSsaPdu, encodeSsaBody, hu,
      RecBuf.addMem, List.nil_append, Option.getD_some]
    rw [if_neg hcne]
  · unfold sdp_client_receive
    simp only [be16enc, List.cons_append, List.nil_append, List.getD_cons_zero,
      List.getD_cons_succ, List.drop_succ_cons, List.drop_zero, List.length_cons,
      List.length_append, List.length_nil, htr2, hlen2, hfl2,
      getD_append_len, sdpHdrSize, sdp_client_get_total,
      BT_SDP_SEQ8, BT_SDP_SEQ16]
    rw [if_neg (by omega)]
    rw [if_neg (by decide)]
    rw [if_neg (by omega)]
    rw [if_neg (by omega)]
    rw [if_pos trivial]
    rw [if_neg (by omega)]
    rw [if_neg (by decide)]
    rw [if_neg (by omega)]
    rw [if_neg (by simp only [and_true, true_and]; omega)]
    norm_num [RecBuf.tailroom]
    simp only [if_neg hcne]
    norm_num
    rw [show List.take (p2.length % 65536) (p2 ++ [0]) = p2 from
      by rw [Nat.mod_eq_of_lt (by omega), List.take_left]]
    simp only [RecBuf.addMem]
    exact ⟨trivial, trivial⟩
  · simp [hT]

/-- Witness for C1 at a concrete two frame transfer with T = 4. -/
theorem two_frame_reassembly_witness :
    (sdp_client_receive ⟨[qA], 0, some qA, ⟨0, []⟩, ⟨[], 16⟩⟩
        (BT_SDP_SVC_SEARCH_ATTR_RSP :: be16enc 0 ++
          be16enc (([53, 2] : List Nat).length + 14) ++
          be16enc (([53, 2] : List Nat).length + 3) ++
          BT_SDP_SEQ16 :: be16enc 4 ++ [53, 2] ++
          8 :: [1, 2, 3, 4, 5, 6, 7, 8]) =
      (⟨[qA], (0 + 1) % 65536, some qA, ⟨8, [1, 2, 3, 4, 5, 6, 7, 8]⟩,
          ⟨[53, 2], 16⟩⟩,
        [Event.sentRequest ((0 + 1) % 65536)
          ((encodeSsaPdu qA.uuid ⟨8, [1, 2, 3, 4, 5, 6, 7, 8]⟩
            ((0 + 1) % 65536)).getD [])])) ∧
    (sdp_client_receive ⟨[qA], (0 + 1) % 65536, some qA,
        ⟨8, [1, 2, 3, 4, 5, 6, 7, 8]⟩, ⟨[53, 2], 16⟩⟩
        (BT_SDP_SVC_SEARCH_ATTR_RSP :: be16enc ((0 + 1) % 65536) ++
          be16enc (([170, 187] : List Nat).length + 3) ++
          be16enc ([170, 187] : List Nat).length ++ [170, 187] ++ [0]) =
      ((sdp_client_params_iterator (sdp_client_notify_result
          ⟨[qA], (0 + 1) % 65536, some qA, ⟨8, [1, 2, 3, 4, 5, 6, 7, 8]⟩,
            ⟨[53, 2] ++ [170, 187], 16⟩⟩ true).1).1,
        (sdp_client_notify_result
          ⟨[qA], (0 + 1) % 65536, some qA, ⟨8, [1, 2, 3, 4, 5, 6, 7, 8]⟩,
            ⟨[53, 2] ++ [170, 187], 16⟩⟩ true).2 ++
        (sdp_client_params_iterator (sdp_client_notify_result
          ⟨[qA], (0 + 1) % 65536, some qA, ⟨8, [1, 2, 3, 4, 5, 6, 7, 8]⟩,
            ⟨[53, 2] ++ [170, 187], 16⟩⟩ true).1).2)) ∧
    (([53, 2] : List Nat) ++ [170, 187]).length = 4 :=
  by
  exact two_frame_reassembly qA [qA] [53, 2] [170, 187] [1, 2, 3, 4, 5, 6, 7, 8]
    4 16 0 [3, 25, 18, 52] rfl (by decide) (by decide) (by decide) (by decide)
    (by decide) (by decide) (by decide) (by decide) (by decide)

end Sdp
